import Mathlib

/-!
Verification of the gem5-ILP helper scripts: the pipeline-trace parser and
visualizer helpers (src/pipeline_view.py), the derived-metric computations
(src/superscalar_simple.py, src/branch_prediction.py, src/simple_smt_test.py),
the width-derived configuration sizing (src/simple_smt_test.py,
src/superscalar_simple.py), the branch-predictor factory
(src/superscalar_pipeline.py) and the width sweep (src/compare_widths.py),
shallowly embedded in Lean. Text is modelled as lists of characters, with
the Python string operations the scripts use (`in`, `split`, `strip`, `int`)
implemented structurally so that they evaluate inside the kernel.
-/

namespace Gem5ILP

/-! ## Python string primitives, over lists of characters -/

abbrev Chars := List Char

/-- Python substring test `pat in s`: some suffix of `s` starts with `pat`. -/
def containsSub (pat : Chars) : Chars → Bool
  | [] => List.isPrefixOf pat []
  | c :: cs => List.isPrefixOf pat (c :: cs) || containsSub pat cs

/-- Worker for `splitOnChars`; the fuel argument (initially the length of the
text, never exhausted for a nonempty separator) makes the recursion
structural. At each position, either the separator matches and the
accumulated fragment is emitted, or one character is shifted onto the
accumulator. -/
def splitOnFuel (sep : Chars) : Nat → Chars → Chars → List Chars
  | _, [], acc => [acc.reverse]
  | 0, rest, acc => [acc.reverse ++ rest]
  | fuel + 1, c :: cs, acc =>
      if List.isPrefixOf sep (c :: cs) then
        acc.reverse :: splitOnFuel sep fuel (List.drop (sep.length - 1) cs) []
      else
        splitOnFuel sep fuel cs (c :: acc)

/-- Python `s.split(sep)` for a nonempty separator: fragments between
consecutive non-overlapping occurrences of `sep`, scanned left to right. -/
def splitOnChars (sep l : Chars) : List Chars :=
  splitOnFuel sep l.length l []

/-- Python `s.strip()`: leading and trailing whitespace removed. -/
def stripChars (l : Chars) : Chars :=
  ((l.dropWhile Char.isWhitespace).reverse.dropWhile Char.isWhitespace).reverse

/-- A nonempty all-decimal-digit text read as a number, `none` otherwise. -/
def decimalDigits? (l : Chars) : Option Nat :=
  if l ≠ [] ∧ l.all Char.isDigit then
    some (l.foldl (fun n c => n * 10 + (c.toNat - 48)) 0)
  else none

/-- Python `int(s)` on stripped text, as an option instead of a `ValueError`:
an optional sign followed by decimal digits (digit-group underscores and
non-ASCII digits, which CPython also accepts, are not modelled). -/
def pyInt? (l : Chars) : Option Int :=
  match l with
  | '-' :: rest => (decimalDigits? rest).map (fun n => -(n : Int))
  | '+' :: rest => (decimalDigits? rest).map (fun n => (n : Int))
  | _ => (decimalDigits? l).map (fun n => (n : Int))

/-! ## Trace parser (src/pipeline_view.py) -/

/-- The five per-stage timelines built by `parse_pipeline_trace`: the values
of the `stages` dict, each a list of (cycle, state) pairs in append order. -/
structure Timelines where
  fetch1 : List (Int × Chars)
  fetch2 : List (Int × Chars)
  execute : List (Int × Chars)
  memory : List (Int × Chars)
  commit : List (Int × Chars)
deriving Repr, DecidableEq

/-- The initial `stages` dict of `parse_pipeline_trace`: five empty lists. -/
def emptyTimelines : Timelines := ⟨[], [], [], [], []⟩

/-- Body of the `for line in f` loop of `parse_pipeline_trace`
(src/pipeline_view.py lines 14-28): a line holding both markers has its text
before the first colon stripped and passed to `int` (an `Except.error` models
the uncaught `ValueError` when it is not an integer), the text after `stages=`
is stripped and split on commas, and when at least 5 tokens result one
(cycle, token) pair is appended to each of the five timelines; otherwise the
line leaves the timelines unchanged. -/
def parseTraceLine (st : Timelines) (line : Chars) : Except Chars Timelines :=
  if containsSub "activity=".data line && containsSub "stages=".data line then
    match pyInt? (stripChars ((splitOnChars ":".data line).headD [])) with
    | none => Except.error line
    | some cycle =>
        let stageStates :=
          splitOnChars ",".data (stripChars ((splitOnChars "stages=".data line).getD 1 []))
        if 5 ≤ stageStates.length then
          Except.ok
            { fetch1 := st.fetch1 ++ [(cycle, stageStates.getD 0 [])]
              fetch2 := st.fetch2 ++ [(cycle, stageStates.getD 1 [])]
              execute := st.execute ++ [(cycle, stageStates.getD 2 [])]
              memory := st.memory ++ [(cycle, stageStates.getD 3 [])]
              commit := st.commit ++ [(cycle, stageStates.getD 4 [])] }
        else Except.ok st
  else Except.ok st

/-- The `for line in f` loop of `parse_pipeline_trace`, folded over the lines
of the trace file; an error on any line aborts the whole parse, as the
uncaught `ValueError` does in Python. -/
def parseTraceLines : List Chars → Timelines → Except Chars Timelines
  | [], st => Except.ok st
  | l :: ls, st =>
      match parseTraceLine st l with
      | Except.error e => Except.error e
      | Except.ok st2 => parseTraceLines ls st2

/-- Function `parse_pipeline_trace` of src/pipeline_view.py, over the list of
lines of the trace file. -/
def parse_pipeline_trace (lines : List Chars) : Except Chars Timelines :=
  parseTraceLines lines emptyTimelines

/-- All (cycle, state) entries of the five timelines, in the iteration order
of `stages.values()` used by `find_active_cycles`. -/
def timelineEntries (st : Timelines) : List (Int × Chars) :=
  st.fetch1 ++ st.fetch2 ++ st.execute ++ st.memory ++ st.commit

/-- Function `find_active_cycles` of src/pipeline_view.py: the cycles whose
recorded state in some stage differs from the idle token `E` and from `-`,
collected into a set and returned sorted; modelled as dedup plus sort, which
agrees elementwise with Python's set insertion followed by `sorted(list(.))`. -/
def find_active_cycles (st : Timelines) : List Int :=
  List.insertionSort (fun a b => a ≤ b)
    (((timelineEntries st).filterMap fun p =>
        if p.2 ≠ "E".data ∧ p.2 ≠ "-".data then some p.1 else none).dedup)

/-- Cycle components of one timeline, in order. -/
def cyclesOf (l : List (Int × Chars)) : List Int := l.map Prod.fst

/-- The cycle number of a line that `parse_pipeline_trace` accepts (both
markers present, integer before the first colon, at least 5 stage tokens),
`none` for a line it skips; restates the accept condition of the loop body of
src/pipeline_view.py lines 14-23. -/
def stepCycle (line : Chars) : Option Int :=
  if containsSub "activity=".data line && containsSub "stages=".data line then
    match pyInt? (stripChars ((splitOnChars ":".data line).headD [])) with
    | none => none
    | some cycle =>
        if 5 ≤ (splitOnChars ",".data
            (stripChars ((splitOnChars "stages=".data line).getD 1 []))).length then
          some cycle
        else none
  else none

/-- The cycle numbers of the lines that `parse_pipeline_trace` accepts, in
input-line order. -/
def acceptedCycles (lines : List Chars) : List Int :=
  lines.filterMap stepCycle

/-! ## Derived metrics (src/superscalar_simple.py, src/simple_smt_test.py,
src/branch_prediction.py) -/

/-- The IPC/CPI block of `main` in src/superscalar_simple.py (lines 210-216)
and of the top-level stats block of src/simple_smt_test.py (lines 180-186):
the pair (ipc, cpi) is computed only when both counts are positive; otherwise
the script prints "Cannot calculate IPC/CPI" and produces no metric value,
modelled as `none`. -/
def computeIpcCpi (cycles instructions : ℕ) : Option (ℚ × ℚ) :=
  if 0 < cycles ∧ 0 < instructions then
    some ((instructions : ℚ) / (cycles : ℚ), (cycles : ℚ) / (instructions : ℚ))
  else none

/-- Outcome of the IPC/CPI block of src/branch_prediction.py lines 195-211. -/
inductive BpMetricOutcome where
  | metrics (ipc cpi : ℚ)
  | noInstructionCount
  | caughtZeroDivision
deriving Repr, DecidableEq

/-- The IPC/CPI block of src/branch_prediction.py (lines 195-211): guarded
only by `instructions > 0`; with a zero cycle count the division raises
`ZeroDivisionError`, which the surrounding `try`/`except` catches and reports
as an error note; with zero instructions the block prints a note and computes
nothing. -/
def bpIpcCpi (cycles : ℚ) (instructions : ℕ) : BpMetricOutcome :=
  if 0 < instructions then
    if cycles = 0 then BpMetricOutcome.caughtZeroDivision
    else BpMetricOutcome.metrics ((instructions : ℚ) / cycles) (cycles / (instructions : ℚ))
  else BpMetricOutcome.noInstructionCount

/-- The branch-prediction accuracy of `main` in src/superscalar_simple.py
(lines 221-224): `correct = lookups - incorrect` (Python integers, so the
difference is signed) and `accuracy = (correct / lookups) * 100` when
`lookups > 0`, else 0. -/
def bpAccuracy (lookups incorrect : ℕ) : ℚ :=
  if 0 < lookups then ((((lookups : ℤ) - (incorrect : ℤ)) : ℚ) / (lookups : ℚ)) * 100
  else 0

/-- The branch-prediction accuracy of the top-level stats block of
src/branch_prediction.py (lines 184-192): from mispredict and correct
counters, `total = mispredicts + correct` when `correct > 0` else 1, and
`accuracy = (correct / total) * 100` when `total > 0`, else 0. -/
def bpAccuracyFromCounts (mispredicts correct : ℕ) : ℚ :=
  let total : ℕ := if 0 < correct then mispredicts + correct else 1
  if 0 < total then ((correct : ℚ) / (total : ℚ)) * 100 else 0

/-! ## Configuration building (src/simple_smt_test.py, src/superscalar_simple.py) -/

/-- The width- and thread-derived fields that the top-level statements of
src/simple_smt_test.py (lines 37-52) assign on the `DerivO3CPU`. -/
structure SMTConfig where
  numThreads : ℤ
  fetchWidth : ℤ
  decodeWidth : ℤ
  renameWidth : ℤ
  dispatchWidth : ℤ
  issueWidth : ℤ
  wbWidth : ℤ
  commitWidth : ℤ
  numROBEntries : ℤ
  LQEntries : ℤ
  SQEntries : ℤ
  numIQEntries : ℤ
deriving Repr, DecidableEq

/-- Configuration building of src/simple_smt_test.py (lines 10-52): the
argparse-supplied width and thread count are used directly, with no
positivity check anywhere in the script; every stage width is the given
width and the queue sizes are fixed multiples of it. An `Except` result
records that no configuration error can be raised. -/
def buildSMTConfig (width threads : ℤ) : Except String SMTConfig :=
  Except.ok
    { numThreads := threads
      fetchWidth := width
      decodeWidth := width
      renameWidth := width
      dispatchWidth := width
      issueWidth := width
      wbWidth := width
      commitWidth := width
      numROBEntries := width * 32
      LQEntries := width * 16
      SQEntries := width * 16
      numIQEntries := width * 16 }

/-- Whether a configuration attempt produced a configuration rather than an
error. -/
def configSucceeds (r : Except String SMTConfig) : Bool :=
  match r with
  | Except.ok _ => true
  | Except.error _ => false

/-- The numeric pipeline fields assigned by `create_superscalar_cpu` in
src/superscalar_simple.py (lines 14-45). -/
structure MinorCPUConfig where
  fetch1LineSnapWidth : ℤ
  fetch1ToFetch2ForwardDelay : ℤ
  fetch2ToDecodeForwardDelay : ℤ
  decodeToExecuteForwardDelay : ℤ
  executeToMemoryForwardDelay : ℤ
  memoryToWritebackForwardDelay : ℤ
  executeBranchDelay : ℤ
  executeCommitLimit : ℤ
  executeMemoryCommitLimit : ℤ
  executeInputBufferSize : ℤ
  executeIssueLimit : ℤ
  executeLSQMaxStoreBufferStoresPerCycle : ℤ
  executeLSQRequestsQueueSize : ℤ
  executeLSQStoreBufferSize : ℤ
  executeLSQTransfersQueueSize : ℤ
  executeMaxAccessesInMemory : ℤ
  executeMemoryWidth : ℤ
  decodeInputWidth : ℤ
  decodeToExecuteForwardWidth : ℤ
  executeInputWidth : ℤ
  fetch1LineWidth : ℤ
  fetch1ToFetch2ForwardWidth : ℤ
  fetch2InputBufferSize : ℤ
  fetch2ToDecodeForwardWidth : ℤ

/-- Numeric configuration produced by `create_superscalar_cpu`
(src/superscalar_simple.py lines 14-45): per-cycle limits equal the width and
buffer and queue sizes are fixed multiples of it; the function performs no
validation of the width. -/
def create_superscalar_cpu (width : ℤ) : MinorCPUConfig :=
  { fetch1LineSnapWidth := 0
    fetch1ToFetch2ForwardDelay := 1
    fetch2ToDecodeForwardDelay := 1
    decodeToExecuteForwardDelay := 1
    executeToMemoryForwardDelay := 1
    memoryToWritebackForwardDelay := 1
    executeBranchDelay := 1
    executeCommitLimit := width
    executeMemoryCommitLimit := width
    executeInputBufferSize := width * 4
    executeIssueLimit := width
    executeLSQMaxStoreBufferStoresPerCycle := width
    executeLSQRequestsQueueSize := width * 2
    executeLSQStoreBufferSize := width * 4
    executeLSQTransfersQueueSize := width * 2
    executeMaxAccessesInMemory := width * 2
    executeMemoryWidth := width
    decodeInputWidth := width
    decodeToExecuteForwardWidth := width
    executeInputWidth := width
    fetch1LineWidth := width
    fetch1ToFetch2ForwardWidth := width
    fetch2InputBufferSize := width * 2
    fetch2ToDecodeForwardWidth := width }

/-! ## Branch-predictor factory (src/superscalar_pipeline.py) -/

/-- Parameters assigned on the global sub-predictor in
`configure_branch_predictor`; `none` means the gem5 default is kept. -/
structure GlobalBPCfg where
  globalHistoryBits : Option ℤ := none
deriving Repr, DecidableEq

/-- Parameters assigned on the local sub-predictor in
`configure_branch_predictor`; `none` means the gem5 default is kept. -/
structure LocalBPCfg where
  localHistoryBits : Option ℤ := none
  localHistoryTableSize : Option ℤ := none
deriving Repr, DecidableEq

/-- The predictor component assigned to `cpu.branchPred` by
`configure_branch_predictor`: either one of the simple predictors, or a
tournament predictor carrying the global and local sub-predictors that the
function attaches to it. -/
inductive BranchPred where
  | nullBP
  | staticBP
  | biModeBP
  | localBP
  | tournamentBP (globalPred : GlobalBPCfg) (localPred : LocalBPCfg)
deriving Repr, DecidableEq

/-- Function `configure_branch_predictor` of src/superscalar_pipeline.py
(lines 88-120): dispatch on the variant string; the `TournamentBP` branch
builds a tournament predictor with global and local sub-predictors and sets
their history parameters; the final `else` branch (any unrecognized string)
builds the same tournament shape with default sub-predictor parameters
instead of raising. -/
def configure_branch_predictor (bpType : String) : BranchPred :=
  if bpType = "NoBP" then BranchPred.nullBP
  else if bpType = "StaticBP" then BranchPred.staticBP
  else if bpType = "BiModeBP" then BranchPred.biModeBP
  else if bpType = "LocalBP" then BranchPred.localBP
  else if bpType = "TournamentBP" then
    BranchPred.tournamentBP { globalHistoryBits := some 12 }
      { localHistoryBits := some 10, localHistoryTableSize := some 2048 }
  else
    BranchPred.tournamentBP {} {}

/-- Whether a predictor component carries both a local and a global
sub-predictor, as the tournament shape does. -/
def hasLocalAndGlobalSub : BranchPred → Bool
  | BranchPred.tournamentBP _ _ => true
  | _ => false

/-! ## Width sweep (src/compare_widths.py) -/

/-- Result of one `subprocess.run` invocation of the simulator: captured
standard output and error and the exit code (`subprocess.run` is called
without `check`, so a nonzero exit code raises nothing). -/
structure RunOutcome where
  stdout : String
  stderr : String
  returncode : ℤ
deriving Repr, DecidableEq

/-- One row of superscalar_results/comparison_results.csv (the wall-time
column, a measured float, is left out of the model). -/
structure SweepRow where
  width : ℕ
  bpType : String
  output : String
deriving Repr, DecidableEq

/-- The sweep loop of src/compare_widths.py (lines 24-43): outer loop over
the widths, inner loop over the predictor types; each cell runs the simulator
once and appends one row recording `stdout + stderr`, whatever the exit code
was. -/
def runSweep (widths : List ℕ) (bpTypes : List String)
    (runSim : ℕ → String → RunOutcome) : List SweepRow :=
  widths.flatMap fun w =>
    bpTypes.map fun bp =>
      { width := w, bpType := bp
        output := (runSim w bp).stdout ++ (runSim w bp).stderr }

/-! ## Claims -/

/-- C1, counterexample: with cycles = 0 and instructions = 5 the IPC/CPI
block computes no metric at all — it neither returns 0 for ipc nor any other
value — so metric resolution does not "return 0 for the corresponding derived
metric" as claimed. -/
theorem C1_counterexample :
    computeIpcCpi 0 5 = none ∧ Option.map Prod.fst (computeIpcCpi 0 5) ≠ some 0 := by
  constructor
  · rfl
  · simp [computeIpcCpi]

/-- C1 (amended): when the resolved cycle count is 0 or the resolved
instruction count is 0, the IPC/CPI block of superscalar_simple.py and
simple_smt_test.py computes no derived metric at all (it prints a diagnostic
and raises nothing); in branch_prediction.py a zero instruction count
likewise skips the computation, while a positive instruction count with zero
cycles raises a ZeroDivisionError that the enclosing handler catches. -/
theorem C1_zero_guard (cycles instructions : ℕ) (cyclesQ : ℚ)
    (h : cycles = 0 ∨ instructions = 0) :
    computeIpcCpi cycles instructions = none ∧
    (instructions = 0 → bpIpcCpi cyclesQ instructions = BpMetricOutcome.noInstructionCount) ∧
    (0 < instructions → bpIpcCpi 0 instructions = BpMetricOutcome.caughtZeroDivision) := by
  refine ⟨?_, ?_, ?_⟩
  · rcases h with h | h <;> simp [computeIpcCpi, h]
  · intro hi
    simp [bpIpcCpi, hi]
  · intro hi
    simp [bpIpcCpi, hi]

/-- C1, witness: the amended statement evaluated at cycles = 0,
instructions = 5. -/
theorem C1_zero_guard_witness :
    computeIpcCpi 0 5 = none ∧ bpIpcCpi 0 5 = BpMetricOutcome.caughtZeroDivision :=
  ⟨(C1_zero_guard 0 5 0 (Or.inl rfl)).1,
   (C1_zero_guard 0 5 0 (Or.inl rfl)).2.2 (by decide)⟩

/-- C2, counterexample: configuration building accepts width 0 (and negative
width) with thread count 0 and produces a configuration instead of raising a
configuration error, so non-positive widths and thread counts are not
rejected. -/
theorem C2_counterexample :
    configSucceeds (buildSMTConfig 0 0) = true ∧
    configSucceeds (buildSMTConfig (-1) (-1)) = true :=
  ⟨rfl, rfl⟩

/-- C2 (amended): configuration building performs no positivity validation at
all — for every integer width and thread count, including non-positive ones,
it succeeds and uses the values as given, deriving the queue sizes as fixed
multiples of the width; no configuration error is raised before simulator
invocation. -/
theorem C2_no_validation (width threads : ℤ) :
    buildSMTConfig width threads =
      Except.ok
        { numThreads := threads
          fetchWidth := width
          decodeWidth := width
          renameWidth := width
          dispatchWidth := width
          issueWidth := width
          wbWidth := width
          commitWidth := width
          numROBEntries := width * 32
          LQEntries := width * 16
          SQEntries := width * 16
          numIQEntries := width * 16 } ∧
    configSucceeds (buildSMTConfig width threads) = true :=
  ⟨rfl, rfl⟩

/-- C3: for every width w ≥ 1 the derived queue sizes equal the fixed
multiples of w — reorder buffer w × 32, load queue w × 16, store queue
w × 16, issue queue w × 16 — and each derived queue size is at least w; the
width-derived buffer and queue sizes of create_superscalar_cpu are likewise
fixed multiples of w and at least w. -/
theorem C3_queue_sizing (width threads : ℤ) (h : 1 ≤ width) :
    (∃ cfg, buildSMTConfig width threads = Except.ok cfg ∧
      cfg.numROBEntries = width * 32 ∧ cfg.LQEntries = width * 16 ∧
      cfg.SQEntries = width * 16 ∧ cfg.numIQEntries = width * 16 ∧
      width ≤ cfg.numROBEntries ∧ width ≤ cfg.LQEntries ∧
      width ≤ cfg.SQEntries ∧ width ≤ cfg.numIQEntries) ∧
    ((create_superscalar_cpu width).executeInputBufferSize = width * 4 ∧
     (create_superscalar_cpu width).executeLSQRequestsQueueSize = width * 2 ∧
     (create_superscalar_cpu width).executeLSQStoreBufferSize = width * 4 ∧
     (create_superscalar_cpu width).executeLSQTransfersQueueSize = width * 2 ∧
     (create_superscalar_cpu width).fetch2InputBufferSize = width * 2 ∧
     width ≤ (create_superscalar_cpu width).executeInputBufferSize ∧
     width ≤ (create_superscalar_cpu width).executeLSQRequestsQueueSize ∧
     width ≤ (create_superscalar_cpu width).executeLSQStoreBufferSize ∧
     width ≤ (create_superscalar_cpu width).executeLSQTransfersQueueSize ∧
     width ≤ (create_superscalar_cpu width).fetch2InputBufferSize) := by
  have h2 : width ≤ width * 2 := by nlinarith
  have h4 : width ≤ width * 4 := by nlinarith
  have h16 : width ≤ width * 16 := by nlinarith
  have h32 : width ≤ width * 32 := by nlinarith
  exact ⟨⟨_, rfl, rfl, rfl, rfl, rfl, h32, h16, h16, h16⟩,
    rfl, rfl, rfl, rfl, rfl, h4, h2, h4, h2, h2⟩

/-- C3, witness: the queue-sizing statement evaluated at width 2. -/
theorem C3_queue_sizing_witness :
    ∃ cfg, buildSMTConfig 2 2 = Except.ok cfg ∧
      cfg.numROBEntries = 2 * 32 ∧ cfg.LQEntries = 2 * 16 ∧
      cfg.SQEntries = 2 * 16 ∧ cfg.numIQEntries = 2 * 16 ∧
      (2 : ℤ) ≤ cfg.numROBEntries ∧ (2 : ℤ) ≤ cfg.LQEntries ∧
      (2 : ℤ) ≤ cfg.SQEntries ∧ (2 : ℤ) ≤ cfg.numIQEntries :=
  (C3_queue_sizing 2 2 (by norm_num)).1

/-- C4: for lookups > 0 and 0 ≤ mispredicts ≤ lookups the computed
branch-prediction accuracy equals (1 − mispredicts/lookups) × 100 and lies in
[0, 100], and with lookups = 0 the accuracy is 0; the same formula is
computed by the mispredict/correct-counter variant of branch_prediction.py,
whose lookups count is mispredicts + correct. -/
theorem C4_accuracy (lookups incorrect : ℕ)
    (hpos : 0 < lookups) (hle : incorrect ≤ lookups) :
    bpAccuracy lookups incorrect = (1 - (incorrect : ℚ) / (lookups : ℚ)) * 100 ∧
    0 ≤ bpAccuracy lookups incorrect ∧
    bpAccuracy lookups incorrect ≤ 100 ∧
    bpAccuracy 0 incorrect = 0 ∧
    bpAccuracyFromCounts incorrect (lookups - incorrect) =
      (1 - (incorrect : ℚ) / (lookups : ℚ)) * 100 ∧
    bpAccuracyFromCounts 0 0 = 0 := by
  have hl0 : (lookups : ℚ) ≠ 0 := Nat.cast_ne_zero.mpr hpos.ne'
  have hlq : (0 : ℚ) < (lookups : ℚ) := by exact_mod_cast hpos
  have hle' : (incorrect : ℚ) ≤ (lookups : ℚ) := by exact_mod_cast hle
  have heq : bpAccuracy lookups incorrect = (1 - (incorrect : ℚ) / (lookups : ℚ)) * 100 := by
    unfold bpAccuracy
    rw [if_pos hpos]
    push_cast
    field_simp
  have hratio1 : (incorrect : ℚ) / (lookups : ℚ) ≤ 1 := (div_le_one hlq).mpr hle'
  have hratio0 : (0 : ℚ) ≤ (incorrect : ℚ) / (lookups : ℚ) :=
    div_nonneg (by positivity) hlq.le
  refine ⟨heq, ?_, ?_, ?_, ?_, ?_⟩
  · rw [heq]; nlinarith
  · rw [heq]; nlinarith
  · simp [bpAccuracy]
  · rcases Nat.lt_or_ge incorrect lookups with hlt | hge
    · have hcorr : 0 < lookups - incorrect := Nat.sub_pos_of_lt hlt
      have htot : incorrect + (lookups - incorrect) = lookups := Nat.add_sub_cancel' hle
      unfold bpAccuracyFromCounts
      rw [if_pos hcorr]
      rw [htot]
      rw [if_pos hpos]
      push_cast [hle]
      field_simp
    · have hil : incorrect = lookups := Nat.le_antisymm hle hge
      have hz : lookups - incorrect = 0 := by omega
      unfold bpAccuracyFromCounts
      rw [hz]
      norm_num
      rw [hil, div_self hl0]
      norm_num
  · norm_num [bpAccuracyFromCounts]

/-- C4, witness: the accuracy statement evaluated at lookups = 4,
mispredicts = 1. -/
theorem C4_accuracy_witness :
    bpAccuracy 4 1 = (1 - ((1 : ℕ) : ℚ) / ((4 : ℕ) : ℚ)) * 100 ∧
    0 ≤ bpAccuracy 4 1 ∧
    bpAccuracy 4 1 ≤ 100 ∧
    bpAccuracy 0 1 = 0 ∧
    bpAccuracyFromCounts 1 (4 - 1) = (1 - ((1 : ℕ) : ℚ) / ((4 : ℕ) : ℚ)) * 100 ∧
    bpAccuracyFromCounts 0 0 = 0 :=
  C4_accuracy 4 1 (by norm_num) (by norm_num)

/-- C5: requesting variant "TournamentBP" yields a predictor carrying both a
local and a global sub-predictor, and every string outside the recognized set
yields the same tournament shape (with default sub-predictor parameters)
rather than raising an error. -/
theorem C5_tournament_shape (s : String)
    (h : s = "TournamentBP" ∨
      (s ≠ "NoBP" ∧ s ≠ "StaticBP" ∧ s ≠ "BiModeBP" ∧ s ≠ "LocalBP" ∧ s ≠ "TournamentBP")) :
    hasLocalAndGlobalSub (configure_branch_predictor s) = true ∧
    (∃ g l, configure_branch_predictor s = BranchPred.tournamentBP g l) ∧
    (s = "TournamentBP" →
      configure_branch_predictor s =
        BranchPred.tournamentBP { globalHistoryBits := some 12 }
          { localHistoryBits := some 10, localHistoryTableSize := some 2048 }) ∧
    (s ≠ "NoBP" → s ≠ "StaticBP" → s ≠ "BiModeBP" → s ≠ "LocalBP" → s ≠ "TournamentBP" →
      configure_branch_predictor s = BranchPred.tournamentBP {} {}) := by
  rcases h with h | ⟨h1, h2, h3, h4, h5⟩
  · subst h
    refine ⟨rfl, ⟨_, _, rfl⟩, fun _ => rfl, fun _ _ _ _ hne => absurd rfl hne⟩
  · have hval : configure_branch_predictor s = BranchPred.tournamentBP {} {} := by
      unfold configure_branch_predictor
      rw [if_neg h1, if_neg h2, if_neg h3, if_neg h4, if_neg h5]
    refine ⟨?_, ⟨_, _, hval⟩, fun hc => absurd hc h5, fun _ _ _ _ _ => hval⟩
    rw [hval]
    rfl

/-- C5, witness: the tournament-shape statement evaluated at the unrecognized
variant string "Tournamant". -/
theorem C5_tournament_shape_witness :
    hasLocalAndGlobalSub (configure_branch_predictor "Tournamant") = true ∧
    (∃ g l, configure_branch_predictor "Tournamant" = BranchPred.tournamentBP g l) ∧
    ("Tournamant" = "TournamentBP" →
      configure_branch_predictor "Tournamant" =
        BranchPred.tournamentBP { globalHistoryBits := some 12 }
          { localHistoryBits := some 10, localHistoryTableSize := some 2048 }) ∧
    ("Tournamant" ≠ "NoBP" → "Tournamant" ≠ "StaticBP" → "Tournamant" ≠ "BiModeBP" →
      "Tournamant" ≠ "LocalBP" → "Tournamant" ≠ "TournamentBP" →
      configure_branch_predictor "Tournamant" = BranchPred.tournamentBP {} {}) :=
  C5_tournament_shape "Tournamant"
    (Or.inr ⟨by decide, by decide, by decide, by decide, by decide⟩)

/-- C6: a trace line containing both markers, an integer before its first
colon, and exactly 5 comma-separated tokens after "stages=" contributes
exactly one (cycle, token) pair to each of the five stage timelines, with the
tokens assigned in order to Fetch1, Fetch2, Execute, Memory, Commit; a line
with both markers but only 4 tokens contributes no entries. -/
theorem C6_parse_stage_tokens (st : Timelines) (line : Chars) (cycle : Int)
    (s0 s1 s2 s3 s4 : Chars)
    (ha : containsSub "activity=".data line = true)
    (hs : containsSub "stages=".data line = true)
    (hc : pyInt? (stripChars ((splitOnChars ":".data line).headD [])) = some cycle)
    (htok : splitOnChars ",".data
        (stripChars ((splitOnChars "stages=".data line).getD 1 [])) = [s0, s1, s2, s3, s4]) :
    parseTraceLine st line =
      Except.ok
        { fetch1 := st.fetch1 ++ [(cycle, s0)]
          fetch2 := st.fetch2 ++ [(cycle, s1)]
          execute := st.execute ++ [(cycle, s2)]
          memory := st.memory ++ [(cycle, s3)]
          commit := st.commit ++ [(cycle, s4)] } ∧
    parseTraceLine st "7: activity=1 stages=F,F,E,M".data = Except.ok st := by
  refine ⟨?_, rfl⟩
  unfold parseTraceLine
  rw [ha, hs]
  simp only [Bool.and_self, if_true]
  rw [hc]
  simp only [htok]
  rfl

/-- C6, witness: the parse statement evaluated at the line
"42: activity=1 stages=F,F,E,M,C". -/
theorem C6_parse_stage_tokens_witness :
    parseTraceLine emptyTimelines "42: activity=1 stages=F,F,E,M,C".data =
      Except.ok
        { fetch1 := emptyTimelines.fetch1 ++ [((42 : Int), "F".data)]
          fetch2 := emptyTimelines.fetch2 ++ [(42, "F".data)]
          execute := emptyTimelines.execute ++ [(42, "E".data)]
          memory := emptyTimelines.memory ++ [(42, "M".data)]
          commit := emptyTimelines.commit ++ [(42, "C".data)] } ∧
    parseTraceLine emptyTimelines "7: activity=1 stages=F,F,E,M".data =
      Except.ok emptyTimelines :=
  C6_parse_stage_tokens emptyTimelines "42: activity=1 stages=F,F,E,M,C".data 42
    "F".data "F".data "E".data "M".data "C".data rfl rfl rfl rfl

/-- C7, counterexample: a line containing both markers whose text before the
first colon is not an integer is not skipped — it aborts the parse with an
error (the uncaught ValueError of `int`), and the following well-formed line
is never processed. -/
theorem C7_counterexample :
    parse_pipeline_trace
        ["x: activity=1 stages=F,F,E,M,C".data,
         "42: activity=1 stages=F,F,E,M,C".data] =
      Except.error "x: activity=1 stages=F,F,E,M,C".data :=
  rfl

/-- C7 (amended): lines lacking one of the markers and both-marker lines
whose stage list has fewer than 5 tokens (with an integral cycle field) are
skipped silently and parsing continues; but a line containing both markers
whose text before the first colon does not parse as an integer raises a
ValueError, which aborts parsing. -/
theorem C7_skip_and_error (line : Chars) (st : Timelines) :
    (¬ (containsSub "activity=".data line = true ∧ containsSub "stages=".data line = true) →
      parseTraceLine st line = Except.ok st) ∧
    (∀ cycle : Int,
      pyInt? (stripChars ((splitOnChars ":".data line).headD [])) = some cycle →
      (splitOnChars ",".data
          (stripChars ((splitOnChars "stages=".data line).getD 1 []))).length < 5 →
      parseTraceLine st line = Except.ok st) ∧
    (containsSub "activity=".data line = true → containsSub "stages=".data line = true →
      pyInt? (stripChars ((splitOnChars ":".data line).headD [])) = none →
      parseTraceLine st line = Except.error line) := by
  refine ⟨?_, ?_, ?_⟩
  · intro h
    unfold parseTraceLine
    rw [if_neg (by simpa [Bool.and_eq_true] using h)]
  · intro cycle hc hlen
    unfold parseTraceLine
    by_cases hm : (containsSub "activity=".data line && containsSub "stages=".data line) = true
    · rw [if_pos hm, hc]
      exact if_neg (Nat.not_le.mpr hlen)
    · rw [if_neg hm]
  · intro h1 h2 hn
    unfold parseTraceLine
    rw [h1, h2]
    simp only [Bool.and_self, if_true]
    rw [hn]

/-- C7, witness: the skip-and-error statement evaluated on a marker-free
line, a 4-token line and a non-integer-cycle line. -/
theorem C7_skip_and_error_witness :
    parseTraceLine emptyTimelines "noise".data = Except.ok emptyTimelines ∧
    parseTraceLine emptyTimelines "7: activity=1 stages=F,F,E,M".data =
      Except.ok emptyTimelines ∧
    parseTraceLine emptyTimelines "x: activity=1 stages=F,F,E,M,C".data =
      Except.error "x: activity=1 stages=F,F,E,M,C".data :=
  ⟨(C7_skip_and_error "noise".data emptyTimelines).1 (by decide),
   (C7_skip_and_error "7: activity=1 stages=F,F,E,M".data emptyTimelines).2.1 7
     (by decide) (by decide),
   (C7_skip_and_error "x: activity=1 stages=F,F,E,M,C".data emptyTimelines).2.2
     (by decide) (by decide) (by decide)⟩

/-- C8: find_active_cycles returns the sorted, duplicate-free list of exactly
those cycles at which some stage's recorded state is neither the idle token
"E" nor "-"; over an all-idle timeline it returns the empty list, and one
non-idle token at cycle 7 makes 7 a member of the result. -/
theorem C8_active_cycles (st : Timelines) :
    (find_active_cycles st).Sorted (fun a b => a ≤ b) ∧
    (find_active_cycles st).Nodup ∧
    (∀ c : Int, c ∈ find_active_cycles st ↔
      ∃ p ∈ timelineEntries st, p.1 = c ∧ p.2 ≠ "E".data ∧ p.2 ≠ "-".data) ∧
    ((∀ p ∈ timelineEntries st, p.2 = "E".data) → find_active_cycles st = []) ∧
    (7 : Int) ∈ find_active_cycles
      ⟨[(6, "E".data), (7, "D".data)], [(6, "E".data), (7, "E".data)],
       [(6, "E".data), (7, "E".data)], [(6, "E".data), (7, "E".data)],
       [(6, "E".data), (7, "E".data)]⟩ := by
  have hmem : ∀ c : Int, c ∈ find_active_cycles st ↔
      ∃ p ∈ timelineEntries st, p.1 = c ∧ p.2 ≠ "E".data ∧ p.2 ≠ "-".data := by
    intro c
    unfold find_active_cycles
    simp only [List.mem_insertionSort, List.mem_dedup, List.mem_filterMap,
      Option.ite_none_right_eq_some, Option.some.injEq]
    constructor
    · rintro ⟨p, hp, ⟨h1, h2⟩, hpc⟩
      exact ⟨p, hp, hpc, h1, h2⟩
    · rintro ⟨p, hp, hpc, h1, h2⟩
      exact ⟨p, hp, ⟨h1, h2⟩, hpc⟩
  refine ⟨?_, ?_, hmem, ?_, ?_⟩
  · exact List.sorted_insertionSort _ _
  · exact ((List.perm_insertionSort _ _).nodup_iff).mpr (List.nodup_dedup _)
  · intro h
    rw [List.eq_nil_iff_forall_not_mem]
    intro c hcmem
    rcases (hmem c).mp hcmem with ⟨p, hp, _, hne, _⟩
    exact hne (h p hp)
  · decide

/-- C8, witness: the active-cycle statement evaluated on an all-idle
timeline. -/
theorem C8_active_cycles_witness :
    find_active_cycles
        ⟨[((1 : Int), "E".data)], [(1, "E".data)], [(1, "E".data)],
         [(1, "E".data)], [(1, "E".data)]⟩ = [] :=
  (C8_active_cycles _).2.2.2.1 (by decide)

/-- One accepted line appends its cycle to every timeline; a skipped line
appends nothing. -/
theorem parseTraceLine_cycles (st : Timelines) (line : Chars) (st2 : Timelines)
    (h : parseTraceLine st line = Except.ok st2) :
    cyclesOf st2.fetch1 = cyclesOf st.fetch1 ++ (stepCycle line).toList ∧
    cyclesOf st2.fetch2 = cyclesOf st.fetch2 ++ (stepCycle line).toList ∧
    cyclesOf st2.execute = cyclesOf st.execute ++ (stepCycle line).toList ∧
    cyclesOf st2.memory = cyclesOf st.memory ++ (stepCycle line).toList ∧
    cyclesOf st2.commit = cyclesOf st.commit ++ (stepCycle line).toList := by
  unfold parseTraceLine at h
  unfold stepCycle
  split at h
  case isTrue hm =>
    rw [if_pos hm]
    split at h
    case h_1 heq =>
      exact absurd h (by simp)
    case h_2 cycle heq =>
      dsimp only at h
      split at h
      case isTrue hlen =>
        rw [if_pos hlen]
        injection h with h2
        subst h2
        simp [cyclesOf]
      case isFalse hlen =>
        rw [if_neg hlen]
        injection h with h2
        subst h2
        simp
  case isFalse hm =>
    rw [if_neg hm]
    injection h with h2
    subst h2
    simp

/-- Over a successful parse of a list of lines, each timeline's cycle
sequence extends by the accepted cycles, in input-line order. -/
theorem parseTraceLines_cycles (lines : List Chars) :
    ∀ st st2, parseTraceLines lines st = Except.ok st2 →
      cyclesOf st2.fetch1 = cyclesOf st.fetch1 ++ acceptedCycles lines ∧
      cyclesOf st2.fetch2 = cyclesOf st.fetch2 ++ acceptedCycles lines ∧
      cyclesOf st2.execute = cyclesOf st.execute ++ acceptedCycles lines ∧
      cyclesOf st2.memory = cyclesOf st.memory ++ acceptedCycles lines ∧
      cyclesOf st2.commit = cyclesOf st.commit ++ acceptedCycles lines := by
  induction lines with
  | nil =>
      intro st st2 h
      injection h with h2
      subst h2
      simp [acceptedCycles]
  | cons l ls ih =>
      intro st st2 h
      unfold parseTraceLines at h
      cases hstep : parseTraceLine st l with
      | error e =>
          rw [hstep] at h
          exact absurd h (by simp)
      | ok stm =>
          rw [hstep] at h
          have hs := parseTraceLine_cycles st l stm hstep
          have hl := ih stm st2 h
          have hacc : acceptedCycles (l :: ls) = (stepCycle l).toList ++ acceptedCycles ls := by
            cases hsc : stepCycle l <;>
              simp [acceptedCycles, List.filterMap_cons, hsc]
          rw [hacc]
          exact ⟨by rw [hl.1, hs.1, List.append_assoc],
                 by rw [hl.2.1, hs.2.1, List.append_assoc],
                 by rw [hl.2.2.1, hs.2.2.1, List.append_assoc],
                 by rw [hl.2.2.2.1, hs.2.2.2.1, List.append_assoc],
                 by rw [hl.2.2.2.2, hs.2.2.2.2, List.append_assoc]⟩

/-- C10: on every successful parse, the five per-stage timelines are in
lockstep — each one's cycle sequence equals the accepted lines' cycles in
input-line order, so all five have equal length and carry the same cycle
value at each index — and a line whose stage list has more than 5 tokens is
accepted with only the first 5 tokens used. -/
theorem C10_lockstep (lines : List Chars) (st : Timelines)
    (h : parse_pipeline_trace lines = Except.ok st) :
    (cyclesOf st.fetch1 = acceptedCycles lines ∧
     cyclesOf st.fetch2 = acceptedCycles lines ∧
     cyclesOf st.execute = acceptedCycles lines ∧
     cyclesOf st.memory = acceptedCycles lines ∧
     cyclesOf st.commit = acceptedCycles lines) ∧
    (st.fetch2.length = st.fetch1.length ∧ st.execute.length = st.fetch1.length ∧
     st.memory.length = st.fetch1.length ∧ st.commit.length = st.fetch1.length) ∧
    (∀ i : ℕ, ((st.fetch1[i]?).map Prod.fst = (st.fetch2[i]?).map Prod.fst ∧
       (st.fetch1[i]?).map Prod.fst = (st.execute[i]?).map Prod.fst ∧
       (st.fetch1[i]?).map Prod.fst = (st.memory[i]?).map Prod.fst ∧
       (st.fetch1[i]?).map Prod.fst = (st.commit[i]?).map Prod.fst)) ∧
    parse_pipeline_trace ["3: activity=1 stages=a,b,c,d,e,x".data] =
      Except.ok ⟨[(3, "a".data)], [(3, "b".data)], [(3, "c".data)],
        [(3, "d".data)], [(3, "e".data)]⟩ := by
  have hc := parseTraceLines_cycles lines emptyTimelines st h
  simp only [emptyTimelines, cyclesOf, List.map_nil, List.nil_append] at hc
  have h1 := hc.1
  have h2 := hc.2.1
  have h3 := hc.2.2.1
  have h4 := hc.2.2.2.1
  have h5 := hc.2.2.2.2
  have hlen : ∀ l : List (Int × Chars), (l.map Prod.fst).length = l.length :=
    fun l => List.length_map l Prod.fst
  have hget : ∀ l : List (Int × Chars), ∀ i : ℕ,
      (l[i]?).map Prod.fst = (l.map Prod.fst)[i]? :=
    fun l i => (List.getElem?_map Prod.fst l i).symm
  refine ⟨⟨h1, h2, h3, h4, h5⟩, ⟨?_, ?_, ?_, ?_⟩, ?_, rfl⟩
  · rw [← hlen, ← hlen, h1, h2]
  · rw [← hlen, ← hlen, h1, h3]
  · rw [← hlen, ← hlen, h1, h4]
  · rw [← hlen, ← hlen, h1, h5]
  · intro i
    refine ⟨?_, ?_, ?_, ?_⟩ <;>
      rw [hget, hget] <;>
      simp only [cyclesOf] at h1 h2 h3 h4 h5
    · rw [h1, h2]
    · rw [h1, h3]
    · rw [h1, h4]
    · rw [h1, h5]

/-- C10, witness: the lockstep statement evaluated on a one-line trace. -/
theorem C10_lockstep_witness :
    cyclesOf (Timelines.mk [((42 : Int), "F".data)] [(42, "F".data)] [(42, "E".data)]
        [(42, "M".data)] [(42, "C".data)]).fetch1 =
      acceptedCycles ["42: activity=1 stages=F,F,E,M,C".data] ∧
    (Timelines.mk [((42 : Int), "F".data)] [(42, "F".data)] [(42, "E".data)]
        [(42, "M".data)] [(42, "C".data)]).fetch2.length =
      (Timelines.mk [((42 : Int), "F".data)] [(42, "F".data)] [(42, "E".data)]
        [(42, "M".data)] [(42, "C".data)]).fetch1.length :=
  ⟨(C10_lockstep ["42: activity=1 stages=F,F,E,M,C".data] _ rfl).1.1,
   (C10_lockstep ["42: activity=1 stages=F,F,E,M,C".data] _ rfl).2.1.1⟩

/-- C9: sweeping widths [1, 2] against predictor type "P1" yields exactly the
two rows (1, "P1") then (2, "P1") — outer loop over widths, inner loop over
predictor types — each recording the cell's combined stdout + stderr text;
this holds for every runner, in particular one whose (1, "P1") cell exits
nonzero, so a failed cell is recorded as that cell's row and does not prevent
the (2, "P1") row. -/
theorem C9_sweep_rows (runSim : ℕ → String → RunOutcome)
    (hfail : (runSim 1 "P1").returncode ≠ 0) :
    runSweep [1, 2] ["P1"] runSim =
      [{ width := 1, bpType := "P1",
         output := (runSim 1 "P1").stdout ++ (runSim 1 "P1").stderr },
       { width := 2, bpType := "P1",
         output := (runSim 2 "P1").stdout ++ (runSim 2 "P1").stderr }] ∧
    (runSweep [1, 2] ["P1"] runSim).length = 2 ∧
    (runSweep [1, 2] ["P1"] runSim).map (fun r => (r.width, r.bpType)) =
      [(1, "P1"), (2, "P1")] :=
  ⟨rfl, rfl, rfl⟩

/-- C9, witness: the sweep statement evaluated on a concrete runner whose
(1, "P1") cell fails with exit code 1. -/
theorem C9_sweep_rows_witness :
    runSweep [1, 2] ["P1"]
        (fun w _ => { stdout := "out", stderr := "err",
                      returncode := if w = 1 then 1 else 0 }) =
      [{ width := 1, bpType := "P1", output := "out" ++ "err" },
       { width := 2, bpType := "P1", output := "out" ++ "err" }] ∧
    (runSweep [1, 2] ["P1"]
        (fun w _ => { stdout := "out", stderr := "err",
                      returncode := if w = 1 then 1 else 0 })).length = 2 ∧
    (runSweep [1, 2] ["P1"]
        (fun w _ => { stdout := "out", stderr := "err",
                      returncode := if w = 1 then 1 else 0 })).map
      (fun r => (r.width, r.bpType)) = [(1, "P1"), (2, "P1")] :=
  C9_sweep_rows
    (fun w _ => { stdout := "out", stderr := "err",
                  returncode := if w = 1 then 1 else 0 })
    (by decide)

end Gem5ILP
